import Mathlib

set_option maxRecDepth 4000

/-!
Verification of the retrieval-and-dispatch core of the `ai-knowledge-base`
repository against its natural-language specification.

The Python source is shallowly embedded: strings are `List Char`, machine
integers are `Nat`/`Int`, fallible code returns `Option`/`Except`, the
`while` loop of the text chunker is modelled with explicit fuel (the
embedded function returns `none` when the fuel budget is exhausted; every
claim about the chunker is conditioned on the loop returning a value), and
Redis is modelled as explicit state passed through the functions that the
source performs its `get`/`incr` calls on.
-/

/-! ## Text chunker (`SearchService._split_text`, search_service.py 458-487)

Python slice and `str.rfind` index normalisation is modelled faithfully,
including negative indices, because `start = end - overlap` in the source can
go negative.  `str.strip()` removes leading and trailing whitespace. -/

/-- The characters Python's `str.isspace` holds true of — exactly the set
`str.strip()` removes: ASCII whitespace and separators, NEL, NBSP, and the
Unicode space/line/paragraph separators. -/
def pySpaceChars : List Char :=
  ['\x09', '\x0a', '\x0b', '\x0c', '\x0d', '\x1c', '\x1d', '\x1e', '\x1f',
   '\x20', '\x85', '\xa0', '\u1680', '\u2000', '\u2001', '\u2002', '\u2003',
   '\u2004', '\u2005', '\u2006', '\u2007', '\u2008', '\u2009', '\u200a',
   '\u2028', '\u2029', '\u202f', '\u205f', '\u3000']

/-- Python's whitespace test `c.isspace()`. -/
def isPySpace (c : Char) : Bool := pySpaceChars.contains c

/-- Python index normalisation for slices: a negative index counts from the
end (clamped at 0), a nonnegative index is clamped at the length. -/
def normIdx (L : Nat) (i : Int) : Nat :=
  if i < 0 then L - min L i.natAbs else min i.toNat L

/-- Python slice `t[s:e]` with full index normalisation. -/
def pySlice (t : List Char) (s e : Int) : List Char :=
  (t.take (normIdx t.length e)).drop (normIdx t.length s)

/-- Python `t.rfind(c, s, e)` for a single-character needle: the largest
index `i` in the normalised window with `t[i] = c`, or `-1` when absent. -/
def pyRfind (t : List Char) (c : Char) (s e : Int) : Int :=
  let s' := normIdx t.length s
  let e' := normIdx t.length e
  match ((List.range t.length).filter
      (fun i => decide (s' ≤ i) && decide (i < e') && (t.get? i == some c))).getLast? with
  | some i => (i : Int)
  | none => -1

/-- Python `str.strip()`: drop leading and trailing whitespace. -/
def pyStrip (t : List Char) : List Char :=
  ((t.dropWhile isPySpace).reverse.dropWhile isPySpace).reverse

/-- A produced chunk together with the character span `[s, e)` its stripped
text occupies in the source string (`e = s + text.length`). -/
structure Chunk where
  s : Nat
  e : Nat
  text : List Char
  deriving Repr, DecidableEq

/-- The `end` cursor of one `_split_text` iteration: `start + chunk_size`,
moved back to the last `'。'` (plus one) or else the last `' '` strictly
after `start`, when `start + chunk_size < len(text)`. -/
def chunkEnd (t : List Char) (chunkSize : Nat) (start : Int) : Int :=
  if start + (chunkSize : Int) < (t.length : Int) then
    if pyRfind t '。' start (start + (chunkSize : Int)) > start then
      pyRfind t '。' start (start + (chunkSize : Int)) + 1
    else
      if pyRfind t ' ' start (start + (chunkSize : Int)) > start then
        pyRfind t ' ' start (start + (chunkSize : Int))
      else start + (chunkSize : Int)
  else start + (chunkSize : Int)

/-- The raw slice `text[start:end]` of one `_split_text` iteration. -/
def rawSlice (t : List Char) (chunkSize : Nat) (start : Int) : List Char :=
  pySlice t start (chunkEnd t chunkSize start)

/-- The stripped chunk `text[start:end].strip()` of one iteration. -/
def chunkOf (t : List Char) (chunkSize : Nat) (start : Int) : List Char :=
  pyStrip (rawSlice t chunkSize start)

/-- The source position where the stripped chunk of one iteration begins:
the normalised `start` plus the leading whitespace removed by `strip`. -/
def chunkPos (t : List Char) (chunkSize : Nat) (start : Int) : Nat :=
  normIdx t.length start + ((rawSlice t chunkSize start).takeWhile isPySpace).length

/-- The `while start < len(text)` loop of `_split_text`, with fuel.  Each
iteration computes the boundary-adjusted `end`, strips the slice, appends
it when non-empty, and restarts at `end - overlap` (or at `end` when the
chunk reached the end of the text). -/
def splitTextAux (t : List Char) (chunkSize overlap : Nat) :
    Nat → Int → List Chunk → Option (List Chunk)
  | 0, _, _ => none
  | fuel + 1, start, acc =>
    if start < (t.length : Int) then
      splitTextAux t chunkSize overlap fuel
        (if chunkEnd t chunkSize start < (t.length : Int) then
          chunkEnd t chunkSize start - (overlap : Int)
        else chunkEnd t chunkSize start)
        (if (chunkOf t chunkSize start).isEmpty then acc
        else acc ++ [⟨chunkPos t chunkSize start,
          chunkPos t chunkSize start + (chunkOf t chunkSize start).length,
          chunkOf t chunkSize start⟩])
    else some acc

/-- `SearchService._split_text(text, chunk_size, overlap)`: returns `[text]`
whole when `len(text) <= chunk_size`, otherwise runs the chunking loop.
The fuel `t.length + 2` is an artifact of the embedding; the source loop
has no bound and can fail to terminate, which surfaces here as `none`. -/
def splitText (t : List Char) (chunkSize overlap : Nat) : Option (List Chunk) :=
  if t.length ≤ chunkSize then some [⟨0, t.length, t⟩]
  else splitTextAux t chunkSize overlap (t.length + 2) 0 []

/-- Position `i` of the source lies in the span of some returned chunk. -/
def coveredBy (chunks : List Chunk) (i : Nat) : Prop :=
  ∃ c ∈ chunks, c.s ≤ i ∧ i < c.e

instance (chunks : List Chunk) (i : Nat) : Decidable (coveredBy chunks i) :=
  inferInstanceAs (Decidable (∃ c ∈ chunks, _ ∧ _))

/-- The spans of `chunks` cover every position of `[0, L)`. -/
def coversRange (chunks : List Chunk) (L : Nat) : Prop :=
  ∀ i < L, coveredBy chunks i

instance (chunks : List Chunk) (L : Nat) : Decidable (coversRange chunks L) :=
  Nat.decidableBallLT L (fun i _ => coveredBy chunks i)

/-- Every adjacent pair of chunks (except possibly the final pair) overlaps
by at least `o` characters. -/
def adjacentOverlap (chunks : List Chunk) (o : Nat) : Prop :=
  ∀ i, i + 2 < chunks.length →
    ∀ c ∈ chunks.get? i, ∀ d ∈ chunks.get? (i + 1), c.e ≥ d.s + o

/-- Every adjacent pair of chunks, the final pair included, overlaps by at
least `o` characters (stronger than `adjacentOverlap`). -/
def adjacentOverlapAll (chunks : List Chunk) (o : Nat) : Prop :=
  ∀ i c d, chunks.get? i = some c → chunks.get? (i + 1) = some d → c.e ≥ d.s + o

/-- Texts containing neither `'。'` nor any whitespace character: on these the
boundary-search and `strip` steps of `_split_text` are inert. -/
def noSplitChars (t : List Char) : Prop :=
  ∀ c ∈ t, isPySpace c = false ∧ c ≠ '。'

instance (t : List Char) : Decidable (noSplitChars t) :=
  List.decidableBAll _ t

/-- The shape of the chunk list produced by the `_split_text` loop on a
no-split-character text started at `s`: spans `[s, s+cs)` advancing by
`cs - ov` until a final span ending at the text length. -/
inductive GoodChain (L cs ov : Nat) : Nat → List Chunk → Prop where
  | last (s : Nat) (c : Chunk) : s < L → L ≤ s + cs → c.s = s → c.e = L →
      GoodChain L cs ov s [c]
  | step (s : Nat) (c : Chunk) (rest : List Chunk) : s < L → s + cs < L →
      c.s = s → c.e = s + cs → GoodChain L cs ov (s + cs - ov) rest →
      GoodChain L cs ov s (c :: rest)

/-! ## Usage ledger, router and dispatch orchestrator
(`ai_service.py`, `config.py`)

The per-(user, day) Redis counters behind `UsageManager` are modelled as an
explicit `UsageState`; each of `check_usage_limit` (a `GET` of the request
counter followed by a compare) and `update_usage` (an `INCR`) acts on that
state.  Provider network behaviour is a parameter `behave`. -/

/-- `settings.free_tier_daily_limit` (config.py:47). -/
def freeTierDailyLimit : Nat := 50

/-- `settings.pro_tier_daily_limit` (config.py:48). -/
def proTierDailyLimit : Nat := 500

/-- `settings.enterprise_tier_daily_limit`: `-1` is the "no limit"
sentinel (config.py:49). -/
def enterpriseTierDailyLimit : Int := -1

/-- `settings.openai_api_key`: `None` by default (config.py:37). -/
def openaiApiKey : Option String := none

/-- The `daily_requests` entry of `Settings.get_tier_limits` (config.py:103);
the other entries are irrelevant to the claims. -/
structure TierLimits where
  daily_requests : Int
  deriving Repr, DecidableEq

/-- `Settings.get_tier_limits(tier)["daily_requests"]`, with the source's
fallback to the free tier for unknown tiers. -/
def getTierLimits (tier : String) : TierLimits :=
  if tier == "free" then ⟨(freeTierDailyLimit : Int)⟩
  else if tier == "pro" then ⟨(proTierDailyLimit : Int)⟩
  else if tier == "enterprise" then ⟨enterpriseTierDailyLimit⟩
  else ⟨(freeTierDailyLimit : Int)⟩

/-- The per-(user, day) Redis counters `...:requests`, `...:tokens` and the
per-provider `...:{provider}` keys (`UsageManager.get_current_usage`). -/
structure UsageState where
  requests : Nat
  tokens : Nat
  prov : List (String × Nat)
  deriving Repr, DecidableEq

/-- All counters absent (a fresh day: Redis `GET` returns nil, read as 0). -/
def usageZero : UsageState := ⟨0, 0, []⟩

/-- The value of the per-provider counter `...:{p}` (0 when absent):
`current_usage["siliconflow_daily"]` is `provCount u "siliconflow"`. -/
def provCount (u : UsageState) (p : String) : Nat :=
  (u.prov.lookup p).getD 0

/-- Redis `INCR` on the per-provider counter key. -/
def bumpProv : List (String × Nat) → String → List (String × Nat)
  | [], p => [(p, 1)]
  | (q, n) :: t, p => if q == p then (q, n + 1) :: t else (q, n) :: bumpProv t p

/-- `UsageManager.update_usage` (ai_service.py:244): increments the request
counter, adds the tokens used, and increments the per-provider counter.
The three `expire` calls only set the 7-day retention TTL. -/
def updateUsage (u : UsageState) (provider : String) (tokensUsed : Nat) : UsageState :=
  ⟨u.requests + 1, u.tokens + tokensUsed, bumpProv u.prov provider⟩

/-- The retention TTL set by `update_usage`: `7 * 24 * 3600` seconds. -/
def usageRetentionTtl : Nat := 7 * 24 * 3600

/-- `UsageManager.check_usage_limit` (ai_service.py:213): reads the current
usage and compares `daily_requests` against the tier's limit (`-1` and `0`
mean unlimited); raises `RateLimitError` when the limit is reached. -/
def checkUsageLimit (tier : String) (u : UsageState) : Except String Bool :=
  if 0 < (getTierLimits tier).daily_requests then
    if ((u.requests : Int) ≥ (getTierLimits tier).daily_requests) then
      Except.error ("已达到每日请求限制(" ++ toString (getTierLimits tier).daily_requests
        ++ "次)")
    else Except.ok true
  else Except.ok true

/-- `AIServiceRouter.get_best_provider_for_task` (ai_service.py:175). -/
def getBestProviderForTask (requestType : String) : String :=
  if requestType == "content_analysis" then "siliconflow"
  else if requestType == "text_generation" then "siliconflow"
  else if requestType == "creative_writing" then
    (if openaiApiKey.isSome then "openai" else "siliconflow")
  else if requestType == "code_generation" then
    (if openaiApiKey.isSome then "openai" else "siliconflow")
  else if requestType == "translation" then "siliconflow"
  else if requestType == "summarization" then "siliconflow"
  else "siliconflow"

/-- `AIServiceRouter.select_provider` (ai_service.py:152): free tier uses
siliconflow until its per-provider daily counter reaches
`free_tier_daily_limit`, then degrades to the local model. -/
def selectProvider (userTier requestType : String) (u : UsageState) : String :=
  if userTier == "free" then
    if provCount u "siliconflow" < freeTierDailyLimit then "siliconflow" else "local"
  else if userTier == "pro" then
    if requestType == "complex_analysis" || requestType == "creative_writing" then
      (if openaiApiKey.isSome then "openai" else "siliconflow")
    else "siliconflow"
  else if userTier == "enterprise" then
    getBestProviderForTask requestType
  else "siliconflow"

/-- `AIServiceRouter.get_fallback_provider` (ai_service.py:187): the
fallback map `openai → siliconflow → local → None`.  (No caller in
`ai_service.py` ever invokes it.) -/
def getFallbackProvider (failedProvider : String) : Option String :=
  if failedProvider == "openai" then some "siliconflow"
  else if failedProvider == "siliconflow" then some "local"
  else none

/-- A sequence of `update_usage` calls `(provider, tokens_used)` applied in
order: the ways a (user, day) counter state can arise from a fresh day. -/
def applyUpdates (u : UsageState) (ops : List (String × Nat)) : UsageState :=
  ops.foldl (fun acc op => updateUsage acc op.1 op.2) u

/-! ### Concurrent quota reservation (C1)

One dispatch touches the shared counters twice: `check_usage_limit`
performs a Redis `GET` of the request counter and compares locally, and
`update_usage` later performs the `INCR`.  A dispatch is therefore two
atomic accesses with a gap, and N dispatches interleave arbitrarily. -/

/-- Progress of one request dispatch through its two shared-counter
accesses. -/
inductive ReqPhase where
  | start
  | passed
  | denied
  | done
  deriving Repr, DecidableEq

/-- Shared counter state plus the per-request phases. -/
structure QuotaRace where
  usage : UsageState
  phases : List ReqPhase
  deriving Repr, DecidableEq

/-- One atomic step of request `i`: from `start` it runs
`check_usage_limit` against the current counters (GET + compare); from
`passed` it runs the `update_usage` increment. -/
def quotaStep (tier provider : String) (tokens : Nat) (st : QuotaRace) (i : Nat) :
    QuotaRace :=
  match st.phases.get? i with
  | some ReqPhase.start =>
    match checkUsageLimit tier st.usage with
    | Except.ok _ => ⟨st.usage, st.phases.set i ReqPhase.passed⟩
    | Except.error _ => ⟨st.usage, st.phases.set i ReqPhase.denied⟩
  | some ReqPhase.passed =>
    ⟨updateUsage st.usage provider tokens, st.phases.set i ReqPhase.done⟩
  | _ => st

/-- Run a schedule (an interleaving of the requests' atomic accesses). -/
def quotaRun (tier provider : String) (tokens : Nat) (sched : List Nat)
    (st : QuotaRace) : QuotaRace :=
  sched.foldl (quotaStep tier provider tokens) st

/-! ### The dispatch orchestrator (`AIServiceManager.process_request`) -/

/-- `schemas.AIRequest` (schemas.py:70): `temperature` (a Python float) is
carried as a rational. -/
structure AIRequest where
  user_id : String
  user_tier : String
  request_type : String
  content : String
  system_prompt : Option String
  temperature : Rat
  max_tokens : Nat
  context : Option (List (String × String))
  deriving Repr, DecidableEq

/-- `schemas.AIResponse` (schemas.py:87), restricted to the fields
`ai_service.py` ever sets (`processing_time` and `metadata` are never
passed there and stay `None`). -/
structure AIResponse where
  content : String
  provider : String
  tokens_used : Nat
  request_type : String
  error : Option String
  deriving Repr, DecidableEq

/-- Outcome of one provider `chat_completion` call: a successful response
(content and total tokens), an `AIServiceError` raised by the provider
wrapper (timeout, transport error, non-2xx are all wrapped into it), or
any other exception. -/
inductive ProviderOutcome where
  | ok (content : String) (totalTokens : Nat)
  | aiError (msg : String)
  | genericError (msg : String)
  deriving Repr, DecidableEq

/-- The exceptions `process_request` re-raises to its caller. -/
inductive RequestError where
  | rateLimit (msg : String)
  | aiService (msg : String)
  deriving Repr, DecidableEq

instance {ε α : Type} [DecidableEq ε] [DecidableEq α] : DecidableEq (Except ε α) :=
  fun x y =>
    match x, y with
    | Except.error e, Except.error f =>
      if h : e = f then isTrue (by rw [h]) else
        isFalse (by intro hc; cases hc; exact h rfl)
    | Except.ok a, Except.ok b =>
      if h : a = b then isTrue (by rw [h]) else
        isFalse (by intro hc; cases hc; exact h rfl)
    | Except.error _, Except.ok _ => isFalse (by intro hc; cases hc)
    | Except.ok _, Except.error _ => isFalse (by intro hc; cases hc)

/-- Observable outcome of one `process_request` call: its return value or
raised error, the providers invoked in order, the usage counters after the
call, and the responses written to the cache. -/
structure RunResult where
  result : Except RequestError AIResponse
  invoked : List String
  usage : UsageState
  cacheWrites : List AIResponse
  deriving Repr, DecidableEq

/-- The fixed apology content of `LocalModelProvider.chat_completion`. -/
def localContent : String := "抱歉，当前AI服务暂时不可用，请稍后重试。"

/-- `AIServiceManager.process_request` (ai_service.py:325): quota check,
cache lookup (its result is the `cached` argument), provider selection,
provider call, usage update and cache write; `RateLimitError` and
`AIServiceError` are re-raised, any other exception degrades through
`_fallback_processing` (ai_service.py:402), which calls the local provider
directly and never raises. -/
def processRequest (req : AIRequest) (usage : UsageState)
    (cached : Option AIResponse) (behave : String → ProviderOutcome) : RunResult :=
  match checkUsageLimit req.user_tier usage with
  | Except.error m => ⟨Except.error (RequestError.rateLimit m), [], usage, []⟩
  | Except.ok _ =>
    match cached with
    | some r => ⟨Except.ok r, [], usage, []⟩
    | none =>
      match behave (selectProvider req.user_tier req.request_type usage) with
      | ProviderOutcome.ok content totalTokens =>
        ⟨Except.ok ⟨content, selectProvider req.user_tier req.request_type usage,
            totalTokens, req.request_type, none⟩,
          [selectProvider req.user_tier req.request_type usage],
          updateUsage usage (selectProvider req.user_tier req.request_type usage)
            totalTokens,
          [⟨content, selectProvider req.user_tier req.request_type usage,
            totalTokens, req.request_type, none⟩]⟩
      | ProviderOutcome.aiError m =>
        ⟨Except.error (RequestError.aiService m),
          [selectProvider req.user_tier req.request_type usage], usage, []⟩
      | ProviderOutcome.genericError m =>
        match behave "local" with
        | ProviderOutcome.ok content _ =>
          ⟨Except.ok ⟨content, "local", 0, req.request_type,
              some ("主要服务不可用，使用降级服务: " ++ m)⟩,
            [selectProvider req.user_tier req.request_type usage, "local"], usage, []⟩
        | _ =>
          ⟨Except.ok ⟨"抱歉，AI服务暂时不可用，请稍后重试。", "none", 0,
              req.request_type, some ("所有服务不可用: " ++ m)⟩,
            [selectProvider req.user_tier req.request_type usage, "local"], usage, []⟩

/-- A free-tier chat request used in concrete runs. -/
def c4Request : AIRequest :=
  ⟨"user-1", "free", "qa_response", "什么是退款政策?", none, (7 : Rat) / 10, 2000, none⟩

/-- Provider behaviour where siliconflow times out and every other
provider (the local responder included) succeeds. -/
def c4Behave : String → ProviderOutcome := fun p =>
  if p == "siliconflow" then ProviderOutcome.aiError "API调用异常: timeout"
  else ProviderOutcome.ok localContent 0

/-! ## Hybrid retrieval merge (`SearchService._hybrid_search`,
search_service.py 547-631)

Scores are Python floats used only for copying and comparison; they are
carried as rationals.  The lexical and vector backend calls are inputs:
`Except.error` models the call raising. -/

/-- The search-result record as `_hybrid_search` constructs it (the fields
passed to the `SearchResult(...)` constructor calls at
search_service.py 571 and 603). -/
structure SearchResult where
  file_id : Nat
  title : String
  content : String
  highlight : List String
  score : Rat
  search_type : String
  file_type : String
  created_at : Option String
  deriving Repr, DecidableEq

/-- `schemas.SearchResponse` (schemas.py:233): the full field list of the
search response model.  There is no warning/partial-coverage flag among its
fields. -/
structure SearchResponse where
  results : List SearchResult
  total : Nat
  query : String
  search_type : String
  processing_time : Rat
  suggestions : Option (List String)
  deriving Repr, DecidableEq

/-- Days-to-civil-date conversion (proleptic Gregorian), for day counts
from epoch 1970-01-01. -/
def civilFromDays (z : Nat) : Nat × Nat × Nat :=
  let u := z + 719468
  let era := u / 146097
  let doe := u % 146097
  let yoe := (doe - doe / 1460 + doe / 36524 - doe / 146097) / 365
  let y := yoe + era * 400
  let doy := doe - (365 * yoe + yoe / 4 - yoe / 100)
  let mp := (5 * doy + 2) / 153
  let d := doy - (153 * mp + 2) / 5 + 1
  let m := if mp < 10 then mp + 3 else mp - 9
  (if m ≤ 2 then y + 1 else y, m, d)

/-- Two-digit zero padding, as `strftime`'s `%m`/`%d` produce. -/
def pad2 (n : Nat) : String :=
  if n < 10 then "0" ++ toString n else toString n

/-- `strftime("%Y-%m-%d")` of a civil date (years ≥ 1000 need no padding). -/
def formatYmd (ymd : Nat × Nat × Nat) : String :=
  toString ymd.1 ++ "-" ++ pad2 ymd.2.1 ++ "-" ++ pad2 ymd.2.2

/-- `datetime.now()` as an epoch-second count: UTC time plus the server's
UTC offset (seconds east of UTC). -/
def datetimeNowEpoch (utcEpochSeconds tzOffsetSeconds : Nat) : Nat :=
  utcEpochSeconds + tzOffsetSeconds

/-- The per-(user, day) key prefix
`f"usage:{user_id}:daily:{today}"` (ai_service.py 232-233, 247-248), where
`today` is the formatted `datetime.now()` date. -/
def dailyUsageKey (userId : String) (nowEpochSeconds : Nat) : String :=
  "usage:" ++ userId ++ ":daily:" ++ formatYmd (civilFromDays (nowEpochSeconds / 86400))

/-! ## The response-cache key (`AIResponseCache.generate_cache_key`,
ai_service.py 279-284)

`process_request` passes `request.dict()` — the **full** request model —
as `request_data` (ai_service.py 336-339, 372-375); the key is
`"ai_cache:{request_type}:" + md5(json.dumps(request_data, sort_keys=True,
ensure_ascii=False))`.  `json.dumps` and MD5 are modelled bit-exactly
(the serializer below reproduces CPython's output for this fixed dict
shape, with `%Y`-style escapes and floats whose values are short decimals,
which covers every temperature the schema admits in witnesses here). -/

/-- Truncation to a 32-bit word. -/
def w32 (n : Nat) : Nat := n % 4294967296

/-- Bitwise combination of the low 32 bits of two words, one bit at a
time. -/
def bit32Fold (f : Bool → Bool → Bool) : Nat → Nat → Nat → Nat
  | 0, _, _ => 0
  | k + 1, x, y =>
    bit32Fold f k (x / 2) (y / 2) * 2 +
      (if f (x % 2 == 1) (y % 2 == 1) then 1 else 0)

/-- 32-bit bitwise and. -/
def land32 (x y : Nat) : Nat := bit32Fold (fun a b => a && b) 32 x y

/-- 32-bit bitwise or. -/
def lor32 (x y : Nat) : Nat := bit32Fold (fun a b => a || b) 32 x y

/-- 32-bit bitwise xor. -/
def lxor32 (x y : Nat) : Nat := bit32Fold (fun a b => a != b) 32 x y

/-- 32-bit bitwise complement. -/
def lnot32 (x : Nat) : Nat := 4294967295 - w32 x

/-- 32-bit left rotation. -/
def rotl32 (x s : Nat) : Nat := w32 (x * 2 ^ s + x / 2 ^ (32 - s))

/-- The 64 MD5 sine-derived constants. -/
def md5K : List Nat :=
  [0xd76aa478, 0xe8c7b756, 0x242070db, 0xc1bdceee,
   0xf57c0faf, 0x4787c62a, 0xa8304613, 0xfd469501,
   0x698098d8, 0x8b44f7af, 0xffff5bb1, 0x895cd7be,
   0x6b901122, 0xfd987193, 0xa679438e, 0x49b40821,
   0xf61e2562, 0xc040b340, 0x265e5a51, 0xe9b6c7aa,
   0xd62f105d, 0x02441453, 0xd8a1e681, 0xe7d3fbc8,
   0x21e1cde6, 0xc33707d6, 0xf4d50d87, 0x455a14ed,
   0xa9e3e905, 0xfcefa3f8, 0x676f02d9, 0x8d2a4c8a,
   0xfffa3942, 0x8771f681, 0x6d9d6122, 0xfde5380c,
   0xa4beea44, 0x4bdecfa9, 0xf6bb4b60, 0xbebfbc70,
   0x289b7ec6, 0xeaa127fa, 0xd4ef3085, 0x04881d05,
   0xd9d4d039, 0xe6db99e5, 0x1fa27cf8, 0xc4ac5665,
   0xf4292244, 0x432aff97, 0xab9423a7, 0xfc93a039,
   0x655b59c3, 0x8f0ccc92, 0xffeff47d, 0x85845dd1,
   0x6fa87e4f, 0xfe2ce6e0, 0xa3014314, 0x4e0811a1,
   0xf7537e82, 0xbd3af235, 0x2ad7d2bb, 0xeb86d391]

/-- The 64 MD5 per-round rotation amounts. -/
def md5S : List Nat :=
  [7, 12, 17, 22, 7, 12, 17, 22, 7, 12, 17, 22, 7, 12, 17, 22,
   5, 9, 14, 20, 5, 9, 14, 20, 5, 9, 14, 20, 5, 9, 14, 20,
   4, 11, 16, 23, 4, 11, 16, 23, 4, 11, 16, 23, 4, 11, 16, 23,
   6, 10, 15, 21, 6, 10, 15, 21, 6, 10, 15, 21, 6, 10, 15, 21]

/-- A 64-bit little-endian byte encoding. -/
def le64 (n : Nat) : List Nat :=
  [n % 256, n / 256 % 256, n / 65536 % 256, n / 16777216 % 256,
   n / 4294967296 % 256, n / 1099511627776 % 256,
   n / 281474976710656 % 256, n / 72057594037927936 % 256]

/-- MD5 padding: `0x80`, zeros to 56 mod 64, then the bit length. -/
def md5Pad (msg : List Nat) : List Nat :=
  msg ++ [0x80] ++ List.replicate ((56 + 64 - (msg.length + 1) % 64) % 64) 0 ++
    le64 (msg.length * 8)

/-- Group bytes into 32-bit little-endian words. -/
def toWordsLE : List Nat → List Nat
  | b0 :: b1 :: b2 :: b3 :: rest =>
    (b0 + 256 * b1 + 65536 * b2 + 16777216 * b3) :: toWordsLE rest
  | _ => []

/-- One of the 64 MD5 rounds on state `(a, b, c, d)`. -/
def md5Round (M : List Nat) (st : Nat × Nat × Nat × Nat) (i : Nat) :
    Nat × Nat × Nat × Nat :=
  let a := st.1
  let b := st.2.1
  let c := st.2.2.1
  let d := st.2.2.2
  let f :=
    if i < 16 then lor32 (land32 b c) (land32 (lnot32 b) d)
    else if i < 32 then lor32 (land32 d b) (land32 (lnot32 d) c)
    else if i < 48 then lxor32 (lxor32 b c) d
    else lxor32 c (lor32 b (lnot32 d))
  let g :=
    if i < 16 then i
    else if i < 32 then (5 * i + 1) % 16
    else if i < 48 then (3 * i + 5) % 16
    else (7 * i) % 16
  let f2 := w32 (f + a + md5K.getD i 0 + M.getD g 0)
  (d, w32 (b + rotl32 f2 (md5S.getD i 0)), b, c)

/-- Process one 64-byte block. -/
def md5Chunk (M : List Nat) (h : Nat × Nat × Nat × Nat) : Nat × Nat × Nat × Nat :=
  let r := (List.range 64).foldl (md5Round M) h
  (w32 (h.1 + r.1), w32 (h.2.1 + r.2.1), w32 (h.2.2.1 + r.2.2.1),
    w32 (h.2.2.2 + r.2.2.2))

/-- Process the padded message block by block (the fuel is the block
count). -/
def md5Blocks : Nat → List Nat → Nat × Nat × Nat × Nat → Nat × Nat × Nat × Nat
  | 0, _, h => h
  | fuel + 1, bytes, h =>
    match bytes with
    | [] => h
    | _ => md5Blocks fuel (bytes.drop 64) (md5Chunk (toWordsLE (bytes.take 64)) h)

/-- Lower-case hexadecimal digit. -/
def hexDigit (n : Nat) : Char := "0123456789abcdef".data.getD n '0'

/-- Two hex digits of a byte. -/
def hexByte (b : Nat) : List Char := [hexDigit (b / 16), hexDigit (b % 16)]

/-- Hex of a 32-bit word, least-significant byte first (MD5 digest
order). -/
def hexWordLE (w : Nat) : List Char :=
  hexByte (w % 256) ++ hexByte (w / 256 % 256) ++ hexByte (w / 65536 % 256) ++
    hexByte (w / 16777216 % 256)

/-- `hashlib.md5(msg).hexdigest()`. -/
def md5Hex (msg : List Nat) : String :=
  let padded := md5Pad msg
  let r := md5Blocks (padded.length / 64) padded
    (0x67452301, 0xefcdab89, 0x98badcfe, 0x10325476)
  String.mk (hexWordLE r.1 ++ hexWordLE r.2.1 ++ hexWordLE r.2.2.1 ++
    hexWordLE r.2.2.2)

/-- UTF-8 encoding of one character (`str.encode()`). -/
def utf8Char (c : Char) : List Nat :=
  let n := c.toNat
  if n < 128 then [n]
  else if n < 2048 then [192 + n / 64, 128 + n % 64]
  else if n < 65536 then [224 + n / 4096, 128 + n / 64 % 64, 128 + n % 64]
  else [240 + n / 262144, 128 + n / 4096 % 64, 128 + n / 64 % 64, 128 + n % 64]

/-- UTF-8 encoding of a character sequence. -/
def utf8Bytes (s : List Char) : List Nat := s.flatMap utf8Char

/-- `json.dumps` escaping of one character (`ensure_ascii=False`): quote,
backslash and control characters are escaped, everything else is kept. -/
def jsonEscapeChar (c : Char) : List Char :=
  if c = '"' then ['\\', '"']
  else if c = '\\' then ['\\', '\\']
  else if c = '\n' then ['\\', 'n']
  else if c = '\r' then ['\\', 'r']
  else if c = '\t' then ['\\', 't']
  else if c = '\x08' then ['\\', 'b']
  else if c = '\x0c' then ['\\', 'f']
  else if c.toNat < 32 then
    ['\\', 'u', '0', '0', hexDigit (c.toNat / 16), hexDigit (c.toNat % 16)]
  else [c]

/-- `json.dumps` body of a string value. -/
def jsonEscape (s : String) : List Char := s.data.flatMap jsonEscapeChar

/-- A JSON string literal. -/
def jsonStr (s : String) : List Char := '"' :: (jsonEscape s ++ ['"'])

/-- A JSON string-or-null value (for the `Optional[str]` fields). -/
def jsonOptStr : Option String → List Char
  | none => "null".data
  | some s => jsonStr s

/-- A JSON integer value. -/
def jsonNat (n : Nat) : List Char := (toString n).data

/-- Decimal expansion digits of `num/den` (`num < den`), stopping when the
remainder vanishes. -/
def decDigitsAux : Nat → Nat → Nat → List Char
  | 0, _, _ => []
  | _, 0, _ => []
  | fuel + 1, num, den =>
    Char.ofNat (48 + num * 10 / den) :: decDigitsAux fuel (num * 10 % den) den

/-- `repr` of a nonnegative Python float whose value is a short terminating
decimal (every temperature used in this development): integer part, a dot,
and the fractional digits (`1.0` style when the value is integral). -/
def pyFloatRepr (q : Rat) : List Char :=
  (toString (q.num / (q.den : Int))).data ++ '.' ::
    (if q.num % (q.den : Int) = 0 then ['0']
     else decDigitsAux 17 (q.num % (q.den : Int)).toNat q.den)

/-- Insertion into a key-sorted association list (`sort_keys=True` for the
nested `context` dict). -/
def insertKv (p : String × String) : List (String × String) → List (String × String)
  | [] => [p]
  | q :: l => if p.1 ≤ q.1 then p :: q :: l else q :: insertKv p l

/-- Sort an association list by key. -/
def sortKvByKey (l : List (String × String)) : List (String × String) :=
  l.foldr insertKv []

/-- The `"k": "v", ...` body of a JSON object. -/
def jsonKvs : List (String × String) → List Char
  | [] => []
  | [(k, v)] => jsonStr k ++ ": ".data ++ jsonStr v
  | (k, v) :: rest => jsonStr k ++ ": ".data ++ jsonStr v ++ ", ".data ++ jsonKvs rest

/-- The optional `context` dict as a JSON value. -/
def jsonCtx : Option (List (String × String)) → List Char
  | none => "null".data
  | some kvs => '\x7b' :: (jsonKvs (sortKvByKey kvs) ++ ['\x7d'])

/-- `json.dumps(request.dict(), sort_keys=True, ensure_ascii=False)`: the
eight schema fields in their sorted key order with CPython's default
separators. -/
def dumpsAIRequest (r : AIRequest) : List Char :=
  "\x7b\"content\": ".data ++ jsonStr r.content ++
  ", \"context\": ".data ++ jsonCtx r.context ++
  ", \"max_tokens\": ".data ++ jsonNat r.max_tokens ++
  ", \"request_type\": ".data ++ jsonStr r.request_type ++
  ", \"system_prompt\": ".data ++ jsonOptStr r.system_prompt ++
  ", \"temperature\": ".data ++ pyFloatRepr r.temperature ++
  ", \"user_id\": ".data ++ jsonStr r.user_id ++
  ", \"user_tier\": ".data ++ (jsonStr r.user_tier ++ ['\x7d'])

/-- `AIResponseCache.generate_cache_key(request_data, request_type)` with
`request_data = request.dict()` as `process_request` passes it:
`"ai_cache:{request_type}:{md5(request_str)}"`. -/
def generateCacheKey (requestData : AIRequest) (requestType : String) : String :=
  "ai_cache:" ++ requestType ++ ":" ++ md5Hex (utf8Bytes (dumpsAIRequest requestData))

/-- The Python float `0.7` (the schema's default temperature), as a
rational with unnormalised components visible to the kernel. -/
def temp07 : Rat := ⟨7, 10, by norm_num, by norm_num⟩

/-- A concrete request from user `alice`. -/
def c2Alice : AIRequest :=
  ⟨"alice", "free", "qa_response", "退款政策是什么?", none, temp07, 2000, none⟩

/-- The identical request from user `bob`: only `user_id` differs. -/
def c2Bob : AIRequest :=
  ⟨"bob", "free", "qa_response", "退款政策是什么?", none, temp07, 2000, none⟩

/-- Strings whose characters serialize to themselves under JSON escaping
(no quote, backslash or control characters). -/
def escapeFreeStr (s : String) : Prop :=
  ∀ c ∈ s.data, jsonEscapeChar c = [c]

instance (s : String) : Decidable (escapeFreeStr s) :=
  List.decidableBAll _ s.data

/-! ## Theorems about the text chunker -/

/-- **C9 counterexample.** The spec says chunking the empty string returns an
empty sequence, but `_split_text` takes the `len(text) <= chunk_size` branch
and returns `[text]`: a one-element list holding the empty chunk. -/
theorem C9_counterexample :
    splitText [] 1000 200 = some [⟨0, 0, []⟩] ∧
      splitText [] 1000 200 ≠ some [] := by
  constructor
  · rfl
  · intro h
    simp [splitText] at h

/-- **C9 (amended).** Chunking the empty string never errors, but yields the
one-element list `[""]` (the whole input as a single chunk), not the empty
sequence. -/
theorem C9_amended :
    splitText [] 1000 200 = some [⟨0, 0, []⟩] := rfl

/-- **C5 counterexample.** For `"ab  cd"` with `targetSize 4`, `overlap 1`
(`O < T`, `L = 6 > 0`), `_split_text` strips the chunks, so the two returned
chunks span `[0,2)` and `[4,6)`: positions 2 and 3 (the whitespace swallowed
by `strip`) are covered by no chunk, refuting gap-freeness. -/
theorem C5_counterexample :
    1 < 4 ∧ 0 < ("ab  cd".data).length ∧
      splitText "ab  cd".data 4 1 =
        some [⟨0, 2, "ab".data⟩, ⟨4, 6, "cd".data⟩] ∧
      ¬ coversRange [⟨0, 2, "ab".data⟩, ⟨4, 6, "cd".data⟩]
          ("ab  cd".data).length := by decide

theorem dropWhile_eq_self_of_none {p : Char → Bool} {l : List Char}
    (h : ∀ c ∈ l, p c = false) : l.dropWhile p = l := by
  cases l with
  | nil => rfl
  | cons a l => simp [List.dropWhile_cons, h a (by simp)]

theorem takeWhile_eq_nil_of_none {p : Char → Bool} {l : List Char}
    (h : ∀ c ∈ l, p c = false) : l.takeWhile p = [] := by
  cases l with
  | nil => rfl
  | cons a l => simp [List.takeWhile_cons, h a (by simp)]

theorem pyStrip_eq_self {l : List Char} (h : ∀ c ∈ l, isPySpace c = false) :
    pyStrip l = l := by
  unfold pyStrip
  rw [dropWhile_eq_self_of_none h, dropWhile_eq_self_of_none, List.reverse_reverse]
  intro c hc
  exact h c (List.mem_reverse.mp hc)

theorem pyRfind_eq_neg_one {t : List Char} {c : Char} (h : c ∉ t) (s e : Int) :
    pyRfind t c s e = -1 := by
  unfold pyRfind
  have hfil : ((List.range t.length).filter
      (fun i => decide (normIdx t.length s ≤ i) && decide (i < normIdx t.length e) &&
        (t.get? i == some c))) = [] := by
    apply List.filter_eq_nil_iff.mpr
    intro i _ hp
    have h3 : t.get? i = some c := by
      have := (Bool.and_eq_true _ _).mp hp
      exact eq_of_beq this.2
    exact h (List.get?_mem h3)
  simp only [pyRfind, hfil, List.getLast?_nil]

theorem normIdx_natCast (L n : Nat) : normIdx L (n : Int) = min n L := by
  unfold normIdx
  rw [if_neg (by exact not_lt.mpr (Int.natCast_nonneg n))]
  rw [Int.toNat_ofNat]

theorem mem_pySlice {t : List Char} {s e : Int} {c : Char}
    (h : c ∈ pySlice t s e) : c ∈ t := by
  unfold pySlice at h
  exact List.mem_of_mem_take (List.mem_of_mem_drop h)

theorem chunkEnd_noSplit {t : List Char} {cs : Nat} (hns : noSplitChars t)
    (s : Nat) : chunkEnd t cs (s : Int) = ((s + cs : Nat) : Int) := by
  have hper : '。' ∉ t := fun hm => (hns _ hm).2 rfl
  have hsp : ' ' ∉ t := fun hm => absurd ((hns _ hm).1) (by decide)
  have hnotp : ¬ ((-1 : Int) > (s : Int)) := by
    intro h
    have := Int.natCast_nonneg s
    omega
  unfold chunkEnd
  rw [pyRfind_eq_neg_one hper, pyRfind_eq_neg_one hsp, if_neg hnotp, if_neg hnotp,
    ite_self]
  push_cast
  rfl

theorem rawSlice_noSplit {t : List Char} {cs : Nat} (hns : noSplitChars t)
    {s : Nat} (hsL : s < t.length) :
    rawSlice t cs (s : Int) = (t.take (min (s + cs) t.length)).drop s := by
  unfold rawSlice pySlice
  rw [chunkEnd_noSplit hns, normIdx_natCast, normIdx_natCast]
  congr 1
  omega

/-- One loop iteration of `_split_text` on a no-split-character text, started
at a nonnegative in-range index, appends exactly the raw slice
`t[s : min (s+cs) L]` and restarts at `s + cs - ov` (or beyond the end). -/
theorem splitTextAux_step_noSplit {t : List Char} {cs ov : Nat}
    (hns : noSplitChars t) (hcs : 0 < cs) {s : Nat} (hsL : s < t.length)
    (fuel : Nat) (acc : List Chunk) :
    splitTextAux t cs ov (fuel + 1) (s : Int) acc =
      splitTextAux t cs ov fuel
        (if ((s + cs : Nat) : Int) < (t.length : Int)
          then ((s + cs : Nat) : Int) - (ov : Int) else ((s + cs : Nat) : Int))
        (acc ++ [⟨s, min (s + cs) t.length,
          (t.take (min (s + cs) t.length)).drop s⟩]) := by
  have hraw := @rawSlice_noSplit t cs hns s hsL
  have hrawmem : ∀ c ∈ (t.take (min (s + cs) t.length)).drop s, isPySpace c = false := by
    intro c hc
    exact (hns c (List.mem_of_mem_take (List.mem_of_mem_drop hc))).1
  have hrawlen : ((t.take (min (s + cs) t.length)).drop s).length =
      min (s + cs) t.length - s := by
    rw [List.length_drop, List.length_take]
    omega
  have hrawne : ((t.take (min (s + cs) t.length)).drop s) ≠ [] := by
    intro h
    have := congrArg List.length h
    rw [hrawlen] at this
    simp at this
    omega
  have hchunk : chunkOf t cs (s : Int) = (t.take (min (s + cs) t.length)).drop s := by
    unfold chunkOf
    rw [hraw, pyStrip_eq_self hrawmem]
  have hpos : chunkPos t cs (s : Int) = s := by
    unfold chunkPos
    rw [hraw, takeWhile_eq_nil_of_none hrawmem, normIdx_natCast]
    simp
    omega
  have hspan : s + (min (s + cs) t.length - s) = min (s + cs) t.length := by omega
  have hempty : ((t.take (min (s + cs) t.length)).drop s).isEmpty = false :=
    List.isEmpty_eq_false.mpr hrawne
  show (if (s : Int) < (t.length : Int) then _ else _) = _
  rw [if_pos (by exact_mod_cast hsL)]
  rw [chunkEnd_noSplit hns, hchunk, hpos, hempty,
    if_neg (show ¬ (false = true) by simp), hrawlen, hspan]

theorem GoodChain.covers {L cs ov s : Nat} {spans : List Chunk} (hov : ov < cs)
    (h : GoodChain L cs ov s spans) : ∀ i, s ≤ i → i < L → coveredBy spans i := by
  induction h with
  | last s c hsL hLe hcs hce =>
    intro i hsi hiL
    exact ⟨c, by simp, by rw [hcs]; exact hsi, by rw [hce]; exact hiL⟩
  | step s c rest hsL hscL hcs hce hchain ih =>
    intro i hsi hiL
    by_cases hi : i < s + cs
    · exact ⟨c, by simp, by rw [hcs]; exact hsi, by rw [hce]; exact hi⟩
    · obtain ⟨d, hd, h1, h2⟩ := ih i (by omega) hiL
      exact ⟨d, by simp [hd], h1, h2⟩

theorem GoodChain.get_zero_start {L cs ov s : Nat} {spans : List Chunk}
    (h : GoodChain L cs ov s spans) : ∃ c, spans.get? 0 = some c ∧ c.s = s := by
  cases h with
  | last s c _ _ hcs _ => exact ⟨c, rfl, hcs⟩
  | step s c rest _ _ hcs _ _ => exact ⟨c, rfl, hcs⟩

theorem GoodChain.pair_overlap {L cs ov s : Nat} {spans : List Chunk}
    (hov : ov < cs) (h : GoodChain L cs ov s spans) :
    ∀ i c d, spans.get? i = some c → spans.get? (i + 1) = some d →
      d.s + ov ≤ c.e := by
  induction h with
  | last s c hsL hLe hcs hce =>
    intro i c' d' _ h2
    simp at h2
  | step s c rest hsL hscL hcs hce hchain ih =>
    intro i c' d' h1 h2
    match i with
    | 0 =>
      have hc : c = c' := by simpa using h1
      obtain ⟨d0, hd0, hd0s⟩ := hchain.get_zero_start
      rw [List.get?_cons_succ] at h2
      rw [h2] at hd0
      have hd : d' = d0 := Option.some_injective _ hd0
      have e1 : c'.e = s + cs := by
        rw [← hc]
        exact hce
      have e2 : d'.s = s + cs - ov := by
        rw [hd]
        exact hd0s
      omega
    | Nat.succ n =>
      rw [List.get?_cons_succ] at h1 h2
      exact ih n c' d' h1 h2

/-- Running the `_split_text` loop on a no-split-character text from an
in-range start with enough fuel appends a `GoodChain` of chunks. -/
theorem splitTextAux_noSplit_goodChain {t : List Char} {cs ov : Nat}
    (hns : noSplitChars t) (hov : ov < cs) :
    ∀ fuel (s : Nat) (acc : List Chunk), s < t.length →
      t.length - s + 1 ≤ fuel →
      ∃ spans, splitTextAux t cs ov fuel (s : Int) acc = some (acc ++ spans) ∧
        GoodChain t.length cs ov s spans := by
  intro fuel
  induction fuel with
  | zero =>
    intro s acc hsL hf
    omega
  | succ fuel ih =>
    intro s acc hsL hf
    have hcs : 0 < cs := by omega
    rw [splitTextAux_step_noSplit hns hcs hsL]
    by_cases hend : s + cs < t.length
    · rw [if_pos (by exact_mod_cast hend)]
      have hcast : ((s + cs : Nat) : Int) - (ov : Int) = ((s + cs - ov : Nat) : Int) := by
        push_cast
        omega
      rw [hcast]
      obtain ⟨spans, heq, hch⟩ := ih (s + cs - ov)
        (acc ++ [⟨s, min (s + cs) t.length, (t.take (min (s + cs) t.length)).drop s⟩])
        (by omega) (by omega)
      refine ⟨⟨s, min (s + cs) t.length, (t.take (min (s + cs) t.length)).drop s⟩ ::
        spans, ?_, ?_⟩
      · rw [heq]
        simp
      · have hmin : min (s + cs) t.length = s + cs := by omega
        exact GoodChain.step s _ spans hsL hend rfl (by simp [hmin]) hch
    · rw [if_neg (by exact_mod_cast hend)]
      obtain ⟨g, rfl⟩ : ∃ g, fuel = g + 1 := ⟨fuel - 1, by omega⟩
      refine ⟨[⟨s, min (s + cs) t.length, (t.take (min (s + cs) t.length)).drop s⟩],
        ?_, ?_⟩
      · show (if ((s + cs : Nat) : Int) < (t.length : Int) then _ else _) = _
        rw [if_neg (by exact_mod_cast hend)]
      · have hmin : min (s + cs) t.length = t.length := by omega
        exact GoodChain.last s _ hsL (by omega) rfl (by simp [hmin])

/-- **C5 (amended).** The coverage/overlap contract holds for texts in which
the boundary search and `strip` are inert (no `'。'`, no whitespace in
Python's `str.isspace` sense): the chunk spans cover `[0, L)` with no gaps
and every adjacent pair — the final pair included — overlaps by at least
`O`.  In general `strip` can swallow whitespace at chunk edges, leaving
whitespace positions uncovered (`C5_counterexample`). -/
theorem C5_amended (t : List Char) (cs ov : Nat) (hns : noSplitChars t)
    (hov : ov < cs) (hL : 0 < t.length) :
    ∃ chunks, splitText t cs ov = some chunks ∧
      coversRange chunks t.length ∧ adjacentOverlapAll chunks ov := by
  unfold splitText
  by_cases hle : t.length ≤ cs
  · rw [if_pos hle]
    refine ⟨[⟨0, t.length, t⟩], rfl, ?_, ?_⟩
    · intro i hi
      exact ⟨⟨0, t.length, t⟩, by simp, Nat.zero_le i, hi⟩
    · intro i c d hc hd
      rw [List.get?_cons_succ, List.get?_nil] at hd
      exact absurd hd (by simp)
  · rw [if_neg hle]
    obtain ⟨spans, heq, hch⟩ := splitTextAux_noSplit_goodChain hns hov
      (t.length + 2) 0 [] hL (by omega)
    refine ⟨spans, ?_, ?_, ?_⟩
    · simpa using heq
    · intro i hi
      exact hch.covers hov i (Nat.zero_le i) hi
    · intro i c d hc hd
      exact hch.pair_overlap hov i c d hc hd

/-- Witness for `C5_amended` at `"abcdef"`, `targetSize 3`, `overlap 1`. -/
theorem C5_amended_witness :
    (noSplitChars "abcdef".data ∧ 1 < 3 ∧ 0 < ("abcdef".data).length) ∧
      ∃ chunks, splitText "abcdef".data 3 1 = some chunks ∧
        coversRange chunks ("abcdef".data).length ∧ adjacentOverlapAll chunks 1 :=
  ⟨by decide, C5_amended "abcdef".data 3 1 (by decide) (by decide) (by decide)⟩

/-! ## Theorems about the usage ledger and the orchestrator -/

/-- **C1 (code bug).** The reserve step is not an atomic
increment-then-compare: `check_usage_limit` is a `GET` followed by a local
compare and the `INCR` happens later in `update_usage`.  With the free-tier
limit of 50 and 49 requests already counted, the interleaving in which two
concurrent dispatches both run their check before either increments lets
both pass, counting 51 requests against the limit of 50. -/
theorem C1_race_exceeds_limit :
    (getTierLimits "free").daily_requests = 50 ∧
      quotaRun "free" "siliconflow" 10 [0, 1, 0, 1]
          ⟨⟨49, 0, []⟩, [ReqPhase.start, ReqPhase.start]⟩ =
        ⟨⟨51, 20, [("siliconflow", 2)]⟩, [ReqPhase.done, ReqPhase.done]⟩ := by
  decide

/-- **C7.** A quota denial short-circuits `process_request`: the
`RateLimitError` is re-raised before any cache lookup result is used, no
provider is invoked, no usage counter is written and nothing is cached. -/
theorem C7_quota_denial_short_circuits (req : AIRequest) (usage : UsageState)
    (cached : Option AIResponse) (behave : String → ProviderOutcome) (m : String)
    (h : checkUsageLimit req.user_tier usage = Except.error m) :
    processRequest req usage cached behave =
      ⟨Except.error (RequestError.rateLimit m), [], usage, []⟩ := by
  unfold processRequest
  rw [h]

/-- Witness for `C7_quota_denial_short_circuits`: a free-tier user at the
daily limit of 50. -/
theorem C7_witness :
    checkUsageLimit c4Request.user_tier ⟨50, 0, []⟩ =
        Except.error "已达到每日请求限制(50次)" ∧
      processRequest c4Request ⟨50, 0, []⟩ none c4Behave =
        ⟨Except.error (RequestError.rateLimit "已达到每日请求限制(50次)"), [],
          ⟨50, 0, []⟩, []⟩ :=
  ⟨by decide,
    C7_quota_denial_short_circuits c4Request ⟨50, 0, []⟩ none c4Behave _ (by decide)⟩

/-- **C4 counterexample.** A provider failure (`AIServiceError`, wrapping
timeouts, transport errors and non-2xx) is re-raised by `process_request`
as a hard error with only the failing provider invoked — even though the
fallback chain is not exhausted: `get_fallback_provider` would name
`"local"` next and the local responder is healthy. -/
theorem C4_counterexample :
    selectProvider c4Request.user_tier c4Request.request_type usageZero =
        "siliconflow" ∧
      c4Behave "local" = ProviderOutcome.ok localContent 0 ∧
      getFallbackProvider "siliconflow" = some "local" ∧
      processRequest c4Request usageZero none c4Behave =
        ⟨Except.error (RequestError.aiService "API调用异常: timeout"),
          ["siliconflow"], usageZero, []⟩ := by
  decide

/-- **C4 (amended).** When the selected provider fails with
`AIServiceError`, `process_request` re-raises it to the caller at once: no
other provider is invoked, the fallback map is never consulted, and no
usage or cache write happens.  (Only a non-`AIServiceError` exception
degrades, and that path jumps directly to the local responder.) -/
theorem C4_amended (req : AIRequest) (usage : UsageState)
    (behave : String → ProviderOutcome) (m : String) (b : Bool)
    (hok : checkUsageLimit req.user_tier usage = Except.ok b)
    (hfail : behave (selectProvider req.user_tier req.request_type usage) =
      ProviderOutcome.aiError m) :
    processRequest req usage none behave =
      ⟨Except.error (RequestError.aiService m),
        [selectProvider req.user_tier req.request_type usage], usage, []⟩ := by
  unfold processRequest
  rw [hok, hfail]

/-- Witness for `C4_amended`: a free-tier request with a fresh day and a
siliconflow timeout. -/
theorem C4_amended_witness :
    checkUsageLimit c4Request.user_tier usageZero = Except.ok true ∧
      c4Behave (selectProvider c4Request.user_tier c4Request.request_type usageZero) =
        ProviderOutcome.aiError "API调用异常: timeout" ∧
      processRequest c4Request usageZero none c4Behave =
        ⟨Except.error (RequestError.aiService "API调用异常: timeout"),
          [selectProvider c4Request.user_tier c4Request.request_type usageZero],
          usageZero, []⟩ :=
  ⟨by decide, by decide,
    C4_amended c4Request usageZero c4Behave _ true (by decide) (by decide)⟩

theorem lookup_bumpProv_le (l : List (String × Nat)) (p q : String) :
    (((bumpProv l p).lookup q).getD 0) ≤ ((l.lookup q).getD 0) + 1 := by
  induction l with
  | nil =>
    by_cases h : (q == p) = true <;> simp [bumpProv, List.lookup, h]
  | cons hd tl ih =>
    obtain ⟨k, v⟩ := hd
    by_cases hkp : (k == p) = true
    · by_cases hqk : (q == k) = true <;>
        simp [bumpProv, List.lookup, hkp, hqk]
    · by_cases hqk : (q == k) = true <;>
        simp [bumpProv, List.lookup, hkp, hqk, ih]

/-- Every `update_usage` call increments the request counter, so any
per-provider counter stays at or below the request counter. -/
theorem provCount_le_requests (ops : List (String × Nat)) (p : String) :
    ∀ u : UsageState, provCount u p ≤ u.requests →
      provCount (applyUpdates u ops) p ≤ (applyUpdates u ops).requests := by
  induction ops with
  | nil =>
    intro u h
    exact h
  | cons op rest ih =>
    intro u h
    apply ih
    calc provCount (updateUsage u op.1 op.2) p
        ≤ provCount u p + 1 := lookup_bumpProv_le u.prov op.1 p
      _ ≤ u.requests + 1 := by omega

/-- **C10.** For a free-tier user whose counters evolved from a fresh day
through `update_usage` calls, a passed quota check (fewer than 50 daily
requests) forces the siliconflow counter below 50 as well, so
`select_provider` returns `"siliconflow"`; the degraded-local branch is
unreachable inside `process_request`. -/
theorem C10_free_tier_local_unreachable (ops : List (String × Nat))
    (requestType : String)
    (hpass : checkUsageLimit "free" (applyUpdates usageZero ops) = Except.ok true) :
    selectProvider "free" requestType (applyUpdates usageZero ops) = "siliconflow" := by
  have hinv : provCount (applyUpdates usageZero ops) "siliconflow" ≤
      (applyUpdates usageZero ops).requests :=
    provCount_le_requests ops "siliconflow" usageZero (Nat.le_refl 0)
  have hreq : (applyUpdates usageZero ops).requests < 50 := by
    by_contra hge
    push_neg at hge
    unfold checkUsageLimit at hpass
    rw [show getTierLimits "free" = ⟨50⟩ from rfl] at hpass
    rw [if_pos (by norm_num)] at hpass
    rw [if_pos (show ((applyUpdates usageZero ops).requests : Int) ≥
      (50 : Int) by exact_mod_cast hge)] at hpass
    simp at hpass
  unfold selectProvider
  rw [if_pos (show (("free" : String) == "free") = true from rfl)]
  rw [if_pos (show provCount (applyUpdates usageZero ops) "siliconflow" <
    freeTierDailyLimit by unfold freeTierDailyLimit; omega)]

/-- Witness for `C10_free_tier_local_unreachable`: one siliconflow request
already counted today. -/
theorem C10_witness :
    checkUsageLimit "free" (applyUpdates usageZero [("siliconflow", 120)]) =
        Except.ok true ∧
      selectProvider "free" "qa_response" (applyUpdates usageZero [("siliconflow", 120)]) =
        "siliconflow" :=
  ⟨by decide,
    C10_free_tier_local_unreachable [("siliconflow", 120)] "qa_response" (by decide)⟩

/-! ## Theorems about the hybrid merge and the usage key -/

/-- **C8 counterexample.** With the server 8 hours east of UTC
(`tz = 28800`), the epoch instants 0 and 60000 fall on the same UTC day
(1970-01-01) yet `datetime.now().strftime("%Y-%m-%d")` puts them under
different usage keys: the quota window follows the server's local midnight,
not 00:00 UTC. -/
theorem C8_counterexample :
    (0 : Nat) / 86400 = (60000 : Nat) / 86400 ∧
      dailyUsageKey "u1" (datetimeNowEpoch 0 28800) = "usage:u1:daily:1970-01-01" ∧
      dailyUsageKey "u1" (datetimeNowEpoch 60000 28800) = "usage:u1:daily:1970-01-02" ∧
      dailyUsageKey "u1" (datetimeNowEpoch 0 28800) ≠
        dailyUsageKey "u1" (datetimeNowEpoch 60000 28800) := by
  decide

/-- **C8 (amended).** The usage key is derived from the server's local
calendar date (`datetime.now()`), so the quota window resets at local
midnight — it coincides with a 00:00 UTC reset only when the server offset
is zero — and the 7-day retention TTL on the counters is a separate
constant. -/
theorem C8_amended (userId : String) (t1 t2 tz : Nat)
    (hday : (t1 + tz) / 86400 = (t2 + tz) / 86400) :
    dailyUsageKey userId (datetimeNowEpoch t1 tz) =
        dailyUsageKey userId (datetimeNowEpoch t2 tz) ∧
      usageRetentionTtl = 604800 := by
  constructor
  · unfold dailyUsageKey datetimeNowEpoch
    rw [hday]
  · rfl

/-- Witness for `C8_amended`: two instants of the same local day at offset
`+08:00`. -/
theorem C8_amended_witness :
    (0 + 28800) / 86400 = (10000 + 28800) / 86400 ∧
      (dailyUsageKey "u1" (datetimeNowEpoch 0 28800) =
          dailyUsageKey "u1" (datetimeNowEpoch 10000 28800) ∧
        usageRetentionTtl = 604800) :=
  ⟨by decide, C8_amended "u1" 0 10000 28800 (by decide)⟩

/-! ## Theorems about the cache key -/

set_option maxHeartbeats 8000000 in
/-- **C2 counterexample.** Two requests identical in content, type,
temperature, max tokens and context but sent by `alice` and `bob` hash to
different cache keys (digests checked against CPython's
`hashlib.md5`/`json.dumps`): the full `request.dict()` — `user_id` and
`user_tier` included — feeds the hash, so the two users do not share a
cache entry. -/
theorem C2_counterexample :
    (c2Alice.content = c2Bob.content ∧ c2Alice.request_type = c2Bob.request_type ∧
      c2Alice.temperature = c2Bob.temperature ∧
      c2Alice.max_tokens = c2Bob.max_tokens ∧ c2Alice.context = c2Bob.context ∧
      c2Alice.user_id ≠ c2Bob.user_id) ∧
    generateCacheKey c2Alice "qa_response" =
      "ai_cache:qa_response:c9c95dd669eb9fbffa4d2b4559097130" ∧
    generateCacheKey c2Bob "qa_response" =
      "ai_cache:qa_response:221a141cdf24f06a1fca5783639483c3" ∧
    generateCacheKey c2Alice "qa_response" ≠ generateCacheKey c2Bob "qa_response" := by
  have h1 : generateCacheKey c2Alice "qa_response" =
      "ai_cache:qa_response:c9c95dd669eb9fbffa4d2b4559097130" := by decide
  have h2 : generateCacheKey c2Bob "qa_response" =
      "ai_cache:qa_response:221a141cdf24f06a1fca5783639483c3" := by decide
  refine ⟨by decide, h1, h2, ?_⟩
  rw [h1, h2]
  decide

theorem flatMap_id_of_singleton {f : Char → List Char} :
    ∀ l : List Char, (∀ c ∈ l, f c = [c]) → l.flatMap f = l := by
  intro l
  induction l with
  | nil => intro _; rfl
  | cons a t ih =>
    intro h
    rw [List.flatMap_cons, h a (by simp), ih (fun c hc => h c (by simp [hc]))]
    rfl

theorem jsonEscape_eq_self {s : String} (h : escapeFreeStr s) :
    jsonEscape s = s.data :=
  flatMap_id_of_singleton s.data h

/-- **C2 (amended).** The cache key is computed over the full serialized
request — `user_id` and `user_tier` included: two requests that agree on
content, context, max tokens, request type, system prompt, temperature and
tier but carry different (escape-free) user ids serialize to different
`json.dumps` strings, so different byte strings are hashed and (as the
counterexample shows concretely) the users get distinct cache entries
rather than sharing one. -/
theorem C2_amended (r1 r2 : AIRequest) (hc : r1.content = r2.content)
    (hx : r1.context = r2.context) (hm : r1.max_tokens = r2.max_tokens)
    (hr : r1.request_type = r2.request_type)
    (hs : r1.system_prompt = r2.system_prompt)
    (ht : r1.temperature = r2.temperature) (htier : r1.user_tier = r2.user_tier)
    (hu : r1.user_id ≠ r2.user_id) (he1 : escapeFreeStr r1.user_id)
    (he2 : escapeFreeStr r2.user_id) :
    dumpsAIRequest r1 ≠ dumpsAIRequest r2 := by
  intro heq
  apply hu
  apply String.ext
  unfold dumpsAIRequest at heq
  rw [hc, hx, hm, hr, hs, ht, htier] at heq
  simp only [List.append_assoc] at heq
  replace heq := List.append_cancel_left heq
  replace heq := List.append_cancel_left heq
  replace heq := List.append_cancel_left heq
  replace heq := List.append_cancel_left heq
  replace heq := List.append_cancel_left heq
  replace heq := List.append_cancel_left heq
  replace heq := List.append_cancel_left heq
  replace heq := List.append_cancel_left heq
  replace heq := List.append_cancel_left heq
  replace heq := List.append_cancel_left heq
  replace heq := List.append_cancel_left heq
  replace heq := List.append_cancel_left heq
  replace heq := List.append_cancel_left heq
  unfold jsonStr at heq
  rw [jsonEscape_eq_self he1, jsonEscape_eq_self he2] at heq
  simp only [List.cons_append, List.cons.injEq, true_and, List.append_assoc] at heq
  exact List.append_cancel_right heq

/-- Witness for `C2_amended` at the `alice`/`bob` request pair. -/
theorem C2_amended_witness :
    (c2Alice.content = c2Bob.content ∧ c2Alice.context = c2Bob.context ∧
      c2Alice.max_tokens = c2Bob.max_tokens ∧
      c2Alice.request_type = c2Bob.request_type ∧
      c2Alice.system_prompt = c2Bob.system_prompt ∧
      c2Alice.temperature = c2Bob.temperature ∧
      c2Alice.user_tier = c2Bob.user_tier ∧ c2Alice.user_id ≠ c2Bob.user_id ∧
      escapeFreeStr c2Alice.user_id ∧ escapeFreeStr c2Bob.user_id) ∧
      dumpsAIRequest c2Alice ≠ dumpsAIRequest c2Bob :=
  ⟨by decide,
    C2_amended c2Alice c2Bob rfl rfl rfl rfl rfl rfl rfl (by decide) (by decide)
      (by decide)⟩
